import Mathlib

/-!
Verification development for the flopods operational scripts
(src/scripts/db-reset.py and src/scripts/init-localstack.py).

The two Python scripts are linear sequences of shell-outs parameterized by
environment variables.  We embed them shallowly: the process environment is a
map from key to optional value, filesystem existence checks are boolean
oracles, and each script is a pure function producing the ordered list of
external commands it would issue (plus an exit status).  Machine effects
(printing banners, the actual subprocess results) are modelled only where a
claim depends on them: the command runner of init-localstack is modelled as a
function of the exit code of the underlying command.
-/

namespace Flopods

/-! ### Process environment and dotenv loading -/

/-- A process environment: a key is either set to a string value or unset.
Mirrors what os.getenv sees. -/
abbrev Env : Type := String → Option String

/-- os.getenv(key, default): the value of the key when set, the default
otherwise. -/
def getenv (env : Env) (key dflt : String) : String :=
  (env key).getD dflt

/-- A filesystem path, as a list of components from the root.
Path(...).parent drops the last component. -/
abbrev Path : Type := List String

/-- Path.parent: drop the final path component. -/
def parentDir (p : Path) : Path :=
  List.dropLast p

/-- Both scripts locate the optional .env file identically
(db-reset.py lines 9-15, init-localstack.py lines 9-15):

  root_dir = Path(file).parent.parent.parent ; env_file = root_dir / ".env"
  if not env_file.exists():
      root_dir = Path(file).parent.parent ; env_file = root_dir / ".env"

`fsExists` is the filesystem oracle; `file` is the path of the script file. -/
def env_file (fsExists : Path → Bool) (file : Path) : Path :=
  let root_dir := parentDir (parentDir (parentDir file))
  let ef := root_dir ++ [".env"]
  if fsExists ef then ef
  else parentDir (parentDir file) ++ [".env"]

/-- load_dotenv(env_file): when the file exists, its key/value pairs fill in
keys that the process environment leaves unset (python-dotenv does not
override already-set variables by default); when the file does not exist the
call is a no-op and the process environment is used as is. -/
def load_dotenv (fsExists : Path → Bool) (fileVars : Path → List (String × String))
    (p : Path) (procEnv : Env) : Env :=
  if fsExists p then
    fun k =>
      match procEnv k with
      | some v => some v
      | none => (fileVars p).lookup k
  else procEnv

/-- The two candidate directories the code consults, read off db-reset.py
lines 9-15: three levels above the script file first, then two levels above
it (the directory holding the scripts directory). -/
def codeCandidateDirs (file : Path) : List Path :=
  [parentDir (parentDir (parentDir file)), parentDir (parentDir file)]

/-- Modelled from the claim wording, for comparison with `codeCandidateDirs`:
"the project root inferred from the script location first, then the parent
of that directory" — the project root (three levels above the script file,
as the source comments call it) followed by the parent of that directory. -/
def specCandidateDirs (file : Path) : List Path :=
  [parentDir (parentDir (parentDir file)),
   parentDir (parentDir (parentDir (parentDir file)))]

/-- Python str.lower() (ASCII model): lower-case every character. -/
def strLower (s : String) : String := ⟨s.data.map Char.toLower⟩

/-- Python str.strip(): drop leading and trailing whitespace characters. -/
def strStrip (s : String) : String :=
  ⟨((s.data.dropWhile Char.isWhitespace).reverse.dropWhile Char.isWhitespace).reverse⟩

/-! ### Container runtime resolution (both scripts)

db-reset.py lines 20-22:

  CONTAINER_RUNTIME = os.getenv("CONTAINER_RUNTIME", "docker").lower().strip()
  if CONTAINER_RUNTIME not in ["docker", "podman"]:
      CONTAINER_RUNTIME = "docker"

init-localstack.py lines 20 and 47-50 do the same normalization but print a
warning before defaulting.  The Bool component records whether a warning line
was printed. -/

/-- Runtime resolution of db-reset.py: normalize, silently coerce invalid
values to "docker".  No warning is ever printed (there is no print in the
fallback branch at lines 21-22). -/
def dbResetContainerRuntime (env : Env) : String × Bool :=
  let r := strStrip (strLower (getenv env "CONTAINER_RUNTIME" "docker"))
  if r = "docker" ∨ r = "podman" then (r, false) else ("docker", false)

/-- Runtime resolution of init-localstack.py: same normalization, but the
fallback branch (lines 47-50) prints an Invalid CONTAINER_RUNTIME warning. -/
def initContainerRuntime (env : Env) : String × Bool :=
  let r := strStrip (strLower (getenv env "CONTAINER_RUNTIME" "docker"))
  if r = "docker" ∨ r = "podman" then (r, false) else ("docker", true)

/-! ### db-reset.py -/

/-- Resolved configuration of db-reset.py (lines 20-34). -/
structure DbResetConfig where
  containerRuntime : String
  dbContainer : String
  localstackContainer : String
  redisContainer : String
deriving Repr, DecidableEq

/-- db-reset.py lines 20-27: resolve the runtime and the three container
names from the environment with hard-coded defaults. -/
def resolveDbResetConfig (env : Env) : DbResetConfig :=
  { containerRuntime := (dbResetContainerRuntime env).1
    dbContainer := getenv env "DB_CONTAINER_NAME" "flopods-db"
    localstackContainer := getenv env "LOCALSTACK_CONTAINER_NAME" "localstack"
    redisContainer := getenv env "REDIS_CONTAINER_NAME" "flopods-redis" }

/-- db-reset.py line 30. -/
def DB_VOLUME : String := "flopods_db_data"

/-- db-reset.py line 31. -/
def LOCALSTACK_VOLUME : String := "localstack-data"

/-- db-reset.py line 32. -/
def REDIS_VOLUME : String := "redis-data"

/-- db-reset.py line 35. -/
def NETWORK_NAME : String := "flopods_network"

/-- db-reset.py lines 38-43: the compose files, as (service name, file name)
pairs in dict insertion order; the paths live under the docker directory next
to the scripts directory. -/
def COMPOSE_FILES : List (String × String) :=
  [("database", "db-docker-compose.yaml"),
   ("localstack", "localstack-docker-compose.yaml"),
   ("redis", "redis-docker-compose.yaml")]

/-- One observable step of db-reset.py: an external command issued through
the container runtime, a skip warning, the settle delay, or the delegation
to init-localstack.py. -/
inductive Event where
  | stopContainer (runtime name : String)
  | removeContainer (runtime name : String)
  | removeVolume (runtime name : String)
  | pruneNetwork (runtime name : String)
  | composeUp (runtime file : String)
  | skipCompose (service file : String)
  | sleepSeconds (n : Nat)
  | runInitLocalstack
  | warnInitMissing
deriving Repr, DecidableEq

/-- The events of db-reset.py that issue a destructive or state-changing
external command (stop, remove, volume rm, network rm, compose up). -/
def isDestructive : Event → Bool
  | .stopContainer _ _ => true
  | .removeContainer _ _ => true
  | .removeVolume _ _ => true
  | .pruneNetwork _ _ => true
  | .composeUp _ _ => true
  | _ => false

/-- The parts of the filesystem db-reset.py main consults: which compose
files exist, and whether init-localstack.py sits next to the script. -/
structure ScriptFS where
  composeFileExists : String → Bool
  initScriptExists : Bool

/-- db-reset.py main (lines 91-176), as the ordered list of observable events
together with the process exit status.

The confirmation gate (lines 104-107) compares response.lower() against
"yes"; a non-match prints a cancellation line and exits with status 0 before
any command.  On a match the five phases run unconditionally in order:
stop x3, rm x3, volume rm x3, network rm, then compose up for each compose
file found on disk (a missing file is skipped with a warning), then
time.sleep(10), then run_init_localstack, which executes the sibling
init-localstack.py when present and only warns when it is absent.  The script
then prints a summary and ends with status 0. -/
def dbResetMain (cfg : DbResetConfig) (fs : ScriptFS) (response : String) :
    List Event × Nat :=
  if strLower response ≠ "yes" then ([], 0)
  else
    let rt := cfg.containerRuntime
    (([Event.stopContainer rt cfg.dbContainer,
       Event.stopContainer rt cfg.localstackContainer,
       Event.stopContainer rt cfg.redisContainer,
       Event.removeContainer rt cfg.dbContainer,
       Event.removeContainer rt cfg.localstackContainer,
       Event.removeContainer rt cfg.redisContainer,
       Event.removeVolume rt DB_VOLUME,
       Event.removeVolume rt LOCALSTACK_VOLUME,
       Event.removeVolume rt REDIS_VOLUME,
       Event.pruneNetwork rt NETWORK_NAME]
      ++ (COMPOSE_FILES.map fun sf =>
            if fs.composeFileExists sf.2 then Event.composeUp rt sf.2
            else Event.skipCompose sf.1 sf.2)
      ++ [Event.sleepSeconds 10]
      ++ (if fs.initScriptExists then [Event.runInitLocalstack]
          else [Event.warnInitMissing])), 0)

/-! ### Concrete helper inputs used by witnesses and counterexamples -/

/-- An empty process environment: every key unset, so every default applies. -/
def emptyEnv : Env := fun _ => none

/-- A filesystem where all three compose files and the init script exist. -/
def allPresentFS : ScriptFS :=
  { composeFileExists := fun _ => true, initScriptExists := true }

/-- A filesystem where the compose files exist but init-localstack.py is
absent. -/
def noInitFS : ScriptFS :=
  { composeFileExists := fun _ => true, initScriptExists := false }

/-- The default db-reset configuration (empty environment). -/
def defCfg : DbResetConfig := resolveDbResetConfig emptyEnv

/-! ### init-localstack.py -/

/-- Resolved configuration of init-localstack.py (lines 20-50).
`runtimeWarned` records whether the Invalid CONTAINER_RUNTIME warning was
printed during validation (lines 47-50). -/
structure InitConfig where
  containerRuntime : String
  runtimeWarned : Bool
  localstackContainer : String
  region : String
  dynamodbEndpoint : String
  sqsEndpoint : String
  podTable : String
  sessionTable : String
  executionTable : String
  cacheTable : String
  contextTable : String
  documentsBucket : String
  vectorsBucket : String
  filesBucket : String
  noreplyEmail : String
  supportEmail : String
deriving Repr, DecidableEq

/-- init-localstack.py lines 20-50: resolve every setting from the
environment with its hard-coded default.  AWS_SQS_ENDPOINT defaults to the
resolved AWS_DYNAMODB_ENDPOINT (line 28). -/
def resolveInitConfig (env : Env) : InitConfig :=
  let dynEndpoint := getenv env "AWS_DYNAMODB_ENDPOINT" "http://localhost:4566"
  { containerRuntime := (initContainerRuntime env).1
    runtimeWarned := (initContainerRuntime env).2
    localstackContainer := getenv env "LOCALSTACK_CONTAINER_NAME" "localstack"
    region := getenv env "AWS_DYNAMODB_REGION" "ap-south-1"
    dynamodbEndpoint := dynEndpoint
    sqsEndpoint := getenv env "AWS_SQS_ENDPOINT" dynEndpoint
    podTable := getenv env "AWS_DYNAMODB_POD_TABLE" "flopods-pods-dev"
    sessionTable := getenv env "AWS_DYNAMODB_SESSION_TABLE" "flopods-sessions-dev"
    executionTable := getenv env "AWS_DYNAMODB_EXECUTION_TABLE" "flopods-executions-dev"
    cacheTable := getenv env "AWS_DYNAMODB_CACHE_TABLE" "flopods-cache-dev"
    contextTable := getenv env "AWS_DYNAMODB_CONTEXT_TABLE" "flopods-context-dev"
    documentsBucket := getenv env "DOCUMENT_S3_BUCKET" "flopods-documents-dev"
    vectorsBucket := getenv env "DOCUMENT_VECTOR_S3_BUCKET" "flopods-vectors-dev"
    filesBucket := getenv env "AWS_S3_BUCKET_NAME" "flopods-files-dev"
    noreplyEmail := getenv env "AWS_SES_NO_REPLY_EMAIL" "noreply@flopods.local"
    supportEmail := getenv env "AWS_SES_SUPPORT_EMAIL" "support@flopods.local" }

/-- An awslocal invocation, with the exact arguments the f-strings of
init-localstack.py pass to it. -/
inductive AwsCall where
  | s3mb (bucket region : String)
  | createTable (name : String)
      (attributeDefinitions : List (String × String))
      (keySchema : List (String × String))
      (billingMode region : String)
  | sesVerifyEmail (address region : String)
  | createQueue (name : String) (attributes : List (String × String))
      (region : String)
  | s3ls (region : String)
  | listTables (region : String)
  | listQueues (region : String)
deriving Repr, DecidableEq

/-- One shell command issued by init-localstack.py: every one of them is
"RUNTIME exec -it CONTAINER awslocal CALL". -/
structure ExecCmd where
  runtime : String
  container : String
  call : AwsCall
deriving Repr, DecidableEq

/-- Each of the five create-table commands of init-localstack.py (lines
86-104) differs only in the table name:

  awslocal dynamodb create-table --table-name NAME
    --attribute-definitions AttributeName=pk,AttributeType=S
                            AttributeName=sk,AttributeType=S
    --key-schema AttributeName=pk,KeyType=HASH AttributeName=sk,KeyType=RANGE
    --billing-mode PAY_PER_REQUEST --region REGION -/
def tableCall (cfg : InitConfig) (name : String) : ExecCmd :=
  { runtime := cfg.containerRuntime
    container := cfg.localstackContainer
    call := AwsCall.createTable name
      [("pk", "S"), ("sk", "S")]
      [("pk", "HASH"), ("sk", "RANGE")]
      "PAY_PER_REQUEST" cfg.region }

/-- The creation commands of init-localstack.py main, in source order
(lines 71-127): three s3 mb, five dynamodb create-table (pod, execution,
context, session, cache), two ses verify-email-identity, two sqs
create-queue.  Each goes through run(). -/
def initCreationCmds (cfg : InitConfig) : List ExecCmd :=
  [{ runtime := cfg.containerRuntime, container := cfg.localstackContainer,
     call := AwsCall.s3mb cfg.documentsBucket cfg.region },
   { runtime := cfg.containerRuntime, container := cfg.localstackContainer,
     call := AwsCall.s3mb cfg.vectorsBucket cfg.region },
   { runtime := cfg.containerRuntime, container := cfg.localstackContainer,
     call := AwsCall.s3mb cfg.filesBucket cfg.region },
   tableCall cfg cfg.podTable,
   tableCall cfg cfg.executionTable,
   tableCall cfg cfg.contextTable,
   tableCall cfg cfg.sessionTable,
   tableCall cfg cfg.cacheTable,
   { runtime := cfg.containerRuntime, container := cfg.localstackContainer,
     call := AwsCall.sesVerifyEmail cfg.noreplyEmail cfg.region },
   { runtime := cfg.containerRuntime, container := cfg.localstackContainer,
     call := AwsCall.sesVerifyEmail cfg.supportEmail cfg.region },
   { runtime := cfg.containerRuntime, container := cfg.localstackContainer,
     call := AwsCall.createQueue "flopods-document-processing.fifo"
       [("FifoQueue", "true"), ("ContentBasedDeduplication", "true"),
        ("VisibilityTimeout", "300"), ("MessageRetentionPeriod", "1209600")]
       cfg.region },
   { runtime := cfg.containerRuntime, container := cfg.localstackContainer,
     call := AwsCall.createQueue "flopods-document-processing-dlq.fifo"
       [("FifoQueue", "true"), ("MessageRetentionPeriod", "1209600")]
       cfg.region }]

/-- The verification commands of init-localstack.py main (lines 130-147),
issued through subprocess.run directly: list buckets, list tables, list
queues. -/
def initVerifyCmds (cfg : InitConfig) : List ExecCmd :=
  [{ runtime := cfg.containerRuntime, container := cfg.localstackContainer,
     call := AwsCall.s3ls cfg.region },
   { runtime := cfg.containerRuntime, container := cfg.localstackContainer,
     call := AwsCall.listTables cfg.region },
   { runtime := cfg.containerRuntime, container := cfg.localstackContainer,
     call := AwsCall.listQueues cfg.region }]

/-- Every command init-localstack.py issues over one standalone run, as a
function of the process environment: all creation commands in order, then
the three verification listings. -/
def initFullTrace (env : Env) : List ExecCmd :=
  initCreationCmds (resolveInitConfig env) ++ initVerifyCmds (resolveInitConfig env)

/-- The result of the run() helper of init-localstack.py: the returned
value (always True in the source) and whether the Skipped line was printed
instead of Done. -/
structure RunOutcome where
  success : Bool
  skippedReported : Bool
deriving Repr, DecidableEq

/-- init-localstack.py lines 52-60:

  result = subprocess.run(cmd, shell=True, capture_output=True, text=True)
  if result.returncode == 0: print("Done"); return True
  print("Skipped (may already exist)"); return True

The outcome is a function of the exit code of the underlying command. -/
def run (returncode : Int) : RunOutcome :=
  if returncode = 0 then { success := true, skippedReported := false }
  else { success := true, skippedReported := true }

/-- init-localstack.py main issuing its creation commands: each command is
passed to run() with whatever exit code the external world produces
(`exitCodeOf` is that oracle), and main never inspects the returned value,
so every command is issued regardless of earlier outcomes. -/
def initMainRun (cfg : InitConfig) (exitCodeOf : ExecCmd → Int) :
    List (ExecCmd × RunOutcome) :=
  (initCreationCmds cfg).map fun c => (c, run (exitCodeOf c))

/-- The create-queue commands among the creation commands, as
(queue name, attributes) pairs. -/
def queueCallsOf (cfg : InitConfig) : List (String × List (String × String)) :=
  (initCreationCmds cfg).filterMap fun c =>
    match c.call with
    | AwsCall.createQueue n attrs _ => some (n, attrs)
    | _ => none

/-- The create-table commands among the creation commands, as
(table name, attribute definitions, key schema, billing mode) tuples. -/
def tableCallsOf (cfg : InitConfig) :
    List (String × List (String × String) × List (String × String) × String) :=
  (initCreationCmds cfg).filterMap fun c =>
    match c.call with
    | AwsCall.createTable n ad ks bm _ => some (n, ad, ks, bm)
    | _ => none

/-- The default init-localstack configuration (empty environment). -/
def defaultInitConfig : InitConfig := resolveInitConfig emptyEnv

/-- An environment whose container runtime setting is invalid. -/
def envBogus : Env :=
  fun k => if k = "CONTAINER_RUNTIME" then some "container-d" else none

/-- An environment whose container runtime setting is an accepted value up to
case and surrounding whitespace. -/
def envPodman : Env :=
  fun k => if k = "CONTAINER_RUNTIME" then some "  PODMAN  " else none

/-! ### Claims about db-reset.py -/

/-- Claim C1, amended: for every prompt response whose lower-cased form is
not the string "yes", the Reset Sequencer issues no command at all and exits
with status 0; it proceeds to the destructive phases (beginning with the
stop of the database container) exactly when the lower-cased response equals
"yes" — so case variants such as "YES" also proceed, not only the exact
string "yes". -/
theorem c1_confirmation_gate (cfg : DbResetConfig) (fs : ScriptFS)
    (response : String) :
    (strLower response ≠ "yes" → dbResetMain cfg fs response = ([], 0)) ∧
    (strLower response = "yes" →
      (dbResetMain cfg fs response).1.head? =
        some (Event.stopContainer cfg.containerRuntime cfg.dbContainer)) := by
  constructor
  · intro h
    simp [dbResetMain, h]
  · intro h
    simp [dbResetMain, h]

/-- Claim C1 counterexample: the response "YES" is not the exact string
"yes", yet the script proceeds and its first issued command is the
destructive stop of the database container — refuting the claim that every
response other than the exact "yes" causes an immediate exit with no
destructive command. -/
theorem c1_counterexample :
    "YES" ≠ "yes" ∧
    (dbResetMain defCfg allPresentFS "YES").1.head? =
      some (Event.stopContainer "docker" "flopods-db") ∧
    isDestructive (Event.stopContainer "docker" "flopods-db") = true := by
  decide

/-- Witness for C1: at the concrete responses "No" and "YES" under the
default configuration. -/
theorem c1_confirmation_gate_witness :
    dbResetMain defCfg allPresentFS "No" = ([], 0) ∧
    (dbResetMain defCfg allPresentFS "YES").1.head? =
      some (Event.stopContainer "docker" "flopods-db") :=
  ⟨(c1_confirmation_gate defCfg allPresentFS "No").1 (by decide),
   (c1_confirmation_gate defCfg allPresentFS "YES").2 (by decide)⟩

/-- Claim C2, amended: for every container-runtime value that normalizes
(lower-case, then strip) outside the two accepted values, both scripts
resolve the runtime to the default "docker", but only the provisioner
(init-localstack.py) emits a warning — the Reset Sequencer (db-reset.py)
replaces the value silently; accepted values differing only in case or
surrounding whitespace are normalized and kept by both scripts, with no
warning. -/
theorem c2_runtime_fallback (env : Env) :
    ((strStrip (strLower (getenv env "CONTAINER_RUNTIME" "docker")) ≠ "docker" ∧
      strStrip (strLower (getenv env "CONTAINER_RUNTIME" "docker")) ≠ "podman") →
      dbResetContainerRuntime env = ("docker", false) ∧
      initContainerRuntime env = ("docker", true)) ∧
    ((strStrip (strLower (getenv env "CONTAINER_RUNTIME" "docker")) = "docker" ∨
      strStrip (strLower (getenv env "CONTAINER_RUNTIME" "docker")) = "podman") →
      dbResetContainerRuntime env =
        (strStrip (strLower (getenv env "CONTAINER_RUNTIME" "docker")), false) ∧
      initContainerRuntime env =
        (strStrip (strLower (getenv env "CONTAINER_RUNTIME" "docker")), false)) := by
  constructor
  · intro h
    constructor
    · simp [dbResetContainerRuntime, h.1, h.2]
    · simp [initContainerRuntime, h.1, h.2]
  · intro h
    constructor
    · simp [dbResetContainerRuntime, h]
    · simp [initContainerRuntime, h]

/-- Claim C2 counterexample: "container-d" is invalid after normalization and
db-reset.py resolves it to "docker" with the warning flag false — no warning
is emitted by that script, refuting the claim that both scripts emit one. -/
theorem c2_counterexample :
    (strStrip (strLower (getenv envBogus "CONTAINER_RUNTIME" "docker")) ≠ "docker" ∧
     strStrip (strLower (getenv envBogus "CONTAINER_RUNTIME" "docker")) ≠ "podman") ∧
    dbResetContainerRuntime envBogus = ("docker", false) := by
  decide

/-- Witness for C2: the invalid value "container-d" falls back in both
scripts (warning only in the provisioner), and "  PODMAN  " is normalized
and kept by both. -/
theorem c2_runtime_fallback_witness :
    (dbResetContainerRuntime envBogus = ("docker", false) ∧
     initContainerRuntime envBogus = ("docker", true)) ∧
    (dbResetContainerRuntime envPodman = ("podman", false) ∧
     initContainerRuntime envPodman = ("podman", false)) :=
  ⟨(c2_runtime_fallback envBogus).1 (by decide),
   (c2_runtime_fallback envPodman).2 (by decide)⟩

/-- Claim C3 (confirmed): after an affirmative confirmation, with all three
compose files and the init script present, the Reset Sequencer issues its
commands in exactly this order: stop for the three containers, remove for the
same three, volume rm for the three volumes, network rm, compose up for the
three compose files, the 10-unit settle delay, then the delegation to the
provisioner — so no command of a later phase ever precedes one of an earlier
phase. -/
theorem c3_phase_order (cfg : DbResetConfig) (fs : ScriptFS) (response : String)
    (hr : strLower response = "yes")
    (hc : ∀ f, fs.composeFileExists f = true)
    (hi : fs.initScriptExists = true) :
    dbResetMain cfg fs response =
      ([Event.stopContainer cfg.containerRuntime cfg.dbContainer,
        Event.stopContainer cfg.containerRuntime cfg.localstackContainer,
        Event.stopContainer cfg.containerRuntime cfg.redisContainer,
        Event.removeContainer cfg.containerRuntime cfg.dbContainer,
        Event.removeContainer cfg.containerRuntime cfg.localstackContainer,
        Event.removeContainer cfg.containerRuntime cfg.redisContainer,
        Event.removeVolume cfg.containerRuntime DB_VOLUME,
        Event.removeVolume cfg.containerRuntime LOCALSTACK_VOLUME,
        Event.removeVolume cfg.containerRuntime REDIS_VOLUME,
        Event.pruneNetwork cfg.containerRuntime NETWORK_NAME,
        Event.composeUp cfg.containerRuntime "db-docker-compose.yaml",
        Event.composeUp cfg.containerRuntime "localstack-docker-compose.yaml",
        Event.composeUp cfg.containerRuntime "redis-docker-compose.yaml",
        Event.sleepSeconds 10,
        Event.runInitLocalstack], 0) := by
  simp [dbResetMain, hr, COMPOSE_FILES, hc, hi]

/-- Witness for C3: the full ordered trace at the default configuration with
confirmation "yes". -/
theorem c3_phase_order_witness :
    dbResetMain defCfg allPresentFS "yes" =
      ([Event.stopContainer "docker" "flopods-db",
        Event.stopContainer "docker" "localstack",
        Event.stopContainer "docker" "flopods-redis",
        Event.removeContainer "docker" "flopods-db",
        Event.removeContainer "docker" "localstack",
        Event.removeContainer "docker" "flopods-redis",
        Event.removeVolume "docker" "flopods_db_data",
        Event.removeVolume "docker" "localstack-data",
        Event.removeVolume "docker" "redis-data",
        Event.pruneNetwork "docker" "flopods_network",
        Event.composeUp "docker" "db-docker-compose.yaml",
        Event.composeUp "docker" "localstack-docker-compose.yaml",
        Event.composeUp "docker" "redis-docker-compose.yaml",
        Event.sleepSeconds 10,
        Event.runInitLocalstack], 0) :=
  c3_phase_order defCfg allPresentFS "yes" (by decide) (fun _ => rfl) rfl

/-- Claim C7, amended: both scripts locate the optional configuration file
by checking exactly two candidate directories in order — the directory three
levels above the script file first, then the directory two levels above it;
the first candidate is the parent of the second (not the second the parent
of the first, as the claim stated); when no candidate file exists on disk
the dotenv load is a no-op and the scripts proceed with the process
environment only. -/
theorem c7_env_file_candidates (fsExists : Path → Bool)
    (fileVars : Path → List (String × String)) (procEnv : Env) (file : Path) :
    (∃ d, codeCandidateDirs file = [parentDir d, d]) ∧
    (fsExists (parentDir (parentDir (parentDir file)) ++ [".env"]) = true →
      env_file fsExists file = parentDir (parentDir (parentDir file)) ++ [".env"]) ∧
    (fsExists (parentDir (parentDir (parentDir file)) ++ [".env"]) = false →
      env_file fsExists file = parentDir (parentDir file) ++ [".env"]) ∧
    ((∀ p, fsExists p = false) →
      load_dotenv fsExists fileVars (env_file fsExists file) procEnv = procEnv) := by
  refine ⟨⟨parentDir (parentDir file), rfl⟩, ?_, ?_, ?_⟩
  · intro h
    simp [env_file, h]
  · intro h
    simp [env_file, h]
  · intro h
    simp [load_dotenv, h]

/-- Claim C7 counterexample: at the concrete script path
home/proj/scripts/db-reset.py the directories the code consults are
[home, home/proj], while the claimed candidates (project root, then its
parent) are [home, <root>]; the code falls back to home/proj/.env, a
directory that is not among the claimed candidates. -/
theorem c7_counterexample :
    specCandidateDirs ["home", "proj", "scripts", "db-reset.py"] ≠
      codeCandidateDirs ["home", "proj", "scripts", "db-reset.py"] ∧
    env_file (fun _ => false) ["home", "proj", "scripts", "db-reset.py"] =
      ["home", "proj", ".env"] ∧
    ["home", "proj"] ∉ specCandidateDirs ["home", "proj", "scripts", "db-reset.py"] := by
  decide

/-- Witness for C7: with no file on disk the fallback candidate is chosen and
the effective environment is the process environment unchanged. -/
theorem c7_env_file_candidates_witness :
    env_file (fun _ => false) ["home", "proj", "scripts", "db-reset.py"] =
      ["home", "proj", ".env"] ∧
    load_dotenv (fun _ => false) (fun _ => [])
      (env_file (fun _ => false) ["home", "proj", "scripts", "db-reset.py"])
      emptyEnv = emptyEnv :=
  ⟨(c7_env_file_candidates (fun _ => false) (fun _ => []) emptyEnv
      ["home", "proj", "scripts", "db-reset.py"]).2.2.1 rfl,
   (c7_env_file_candidates (fun _ => false) (fun _ => []) emptyEnv
      ["home", "proj", "scripts", "db-reset.py"]).2.2.2 (fun _ => rfl)⟩

/-- Claim C9 (confirmed): after an affirmative confirmation, the Reset
Sequencer delegates to the provisioner exactly once when the
init-localstack.py script exists, and when it is absent it emits the warning
instead, never delegates, and still finishes with exit status 0 — absence is
not fatal. -/
theorem c9_delegate_once (cfg : DbResetConfig) (fs : ScriptFS)
    (response : String) (hr : strLower response = "yes") :
    (fs.initScriptExists = true →
      (dbResetMain cfg fs response).1.count Event.runInitLocalstack = 1 ∧
      (dbResetMain cfg fs response).1.count Event.warnInitMissing = 0 ∧
      (dbResetMain cfg fs response).2 = 0) ∧
    (fs.initScriptExists = false →
      (dbResetMain cfg fs response).1.count Event.runInitLocalstack = 0 ∧
      (dbResetMain cfg fs response).1.count Event.warnInitMissing = 1 ∧
      (dbResetMain cfg fs response).2 = 0) := by
  constructor <;> intro h <;>
    simp [dbResetMain, hr, h, COMPOSE_FILES, List.count_append, List.count_cons] <;>
    (repeat' split) <;> simp_all

/-- Witness for C9: with confirmation "yes", delegation happens exactly once
when the init script is present and the warning is emitted instead when it
is absent. -/
theorem c9_delegate_once_witness :
    ((dbResetMain defCfg allPresentFS "yes").1.count Event.runInitLocalstack = 1) ∧
    ((dbResetMain defCfg noInitFS "yes").1.count Event.warnInitMissing = 1) :=
  ⟨((c9_delegate_once defCfg allPresentFS "yes" (by decide)).1 rfl).1,
   (((c9_delegate_once defCfg noInitFS "yes" (by decide)).2 rfl).2).1⟩

/-! ### Claims about init-localstack.py -/

/-- Claim C4 (confirmed): the provisioner creates the two queues as a
matched pair — the create-queue calls are exactly the primary FIFO queue
with content-based deduplication enabled, visibility timeout 300 and
retention 1209600, followed by the dead-letter queue with the same retention
1209600 and no deduplication attribute. -/
theorem c4_queue_pair (cfg : InitConfig) :
    ∃ pAttrs dAttrs,
      queueCallsOf cfg =
        [("flopods-document-processing.fifo", pAttrs),
         ("flopods-document-processing-dlq.fifo", dAttrs)] ∧
      pAttrs.lookup "FifoQueue" = some "true" ∧
      pAttrs.lookup "ContentBasedDeduplication" = some "true" ∧
      pAttrs.lookup "VisibilityTimeout" = some "300" ∧
      pAttrs.lookup "MessageRetentionPeriod" = some "1209600" ∧
      dAttrs.lookup "FifoQueue" = some "true" ∧
      dAttrs.lookup "MessageRetentionPeriod" = some "1209600" ∧
      dAttrs.lookup "ContentBasedDeduplication" = none :=
  ⟨_, _, rfl, rfl, rfl, rfl, rfl, rfl, rfl, rfl⟩

/-- Claim C5 (confirmed): the provisioner issues exactly five create-table
calls, each with a string-typed pk HASH partition key and a string-typed sk
RANGE sort key, and on-demand billing (PAY_PER_REQUEST). -/
theorem c5_five_tables (cfg : InitConfig) :
    (tableCallsOf cfg).length = 5 ∧
    ((tableCallsOf cfg).all fun t =>
      t.2.1 == [("pk", "S"), ("sk", "S")] &&
      t.2.2.1 == [("pk", "HASH"), ("sk", "RANGE")] &&
      t.2.2.2 == "PAY_PER_REQUEST") = true :=
  ⟨rfl, rfl⟩

/-- Claim C6 (confirmed): the command-runner of the provisioner yields the
same success result for every exit status of the underlying command, reports
every non-zero exit as a non-fatal skip (never distinguishing causes), and
main issues the same creation commands whatever exit codes the external
world produces. -/
theorem c6_skip_policy (cfg : InitConfig) (exitCodeOf : ExecCmd → Int) :
    ((initMainRun cfg exitCodeOf).map Prod.fst = initCreationCmds cfg) ∧
    (∀ c₁ c₂ : Int, (run c₁).success = (run c₂).success) ∧
    (∀ code : Int, code ≠ 0 → (run code).skippedReported = true) := by
  have hs : ∀ c : Int, (run c).success = true := by
    intro c
    by_cases h : c = 0 <;> simp [run, h]
  refine ⟨?_, ?_, ?_⟩
  · rfl
  · intro c₁ c₂
    rw [hs c₁, hs c₂]
  · intro code hc
    simp [run, hc]

/-- Witness for C6: with every command failing with exit code 1, the command
sequence is unchanged and the failure is reported as a skip. -/
theorem c6_skip_policy_witness :
    ((initMainRun defaultInitConfig fun _ => 1).map Prod.fst =
      initCreationCmds defaultInitConfig) ∧
    (run 1).skippedReported = true :=
  ⟨(c6_skip_policy defaultInitConfig fun _ => 1).1,
   (c6_skip_policy defaultInitConfig fun _ => 1).2.2 1 (by decide)⟩

/-- Claim C8 (confirmed): when the environment supplies a pod-table name
override the first create-table call of the provisioner uses the overridden
name (with the fixed key schema and billing mode), and when no override is
supplied it uses the hard-coded default "flopods-pods-dev". -/
theorem c8_pod_table_override (env : Env) :
    (∀ n, env "AWS_DYNAMODB_POD_TABLE" = some n →
      (tableCallsOf (resolveInitConfig env)).head? =
        some (n, [("pk", "S"), ("sk", "S")],
          [("pk", "HASH"), ("sk", "RANGE")], "PAY_PER_REQUEST")) ∧
    (env "AWS_DYNAMODB_POD_TABLE" = none →
      (tableCallsOf (resolveInitConfig env)).head? =
        some ("flopods-pods-dev", [("pk", "S"), ("sk", "S")],
          [("pk", "HASH"), ("sk", "RANGE")], "PAY_PER_REQUEST")) := by
  constructor
  · intro n hn
    simp [tableCallsOf, initCreationCmds, tableCall, resolveInitConfig, getenv, hn]
  · intro hn
    simp [tableCallsOf, initCreationCmds, tableCall, resolveInitConfig, getenv, hn]

/-- An environment supplying a pod-table name override. -/
def envOverride : Env :=
  fun k => if k = "AWS_DYNAMODB_POD_TABLE" then some "custom-pods" else none

/-- Witness for C8: with the override "custom-pods" the first create-table
call uses that name; with the empty environment it uses the default. -/
theorem c8_pod_table_override_witness :
    (tableCallsOf (resolveInitConfig envOverride)).head? =
      some ("custom-pods", [("pk", "S"), ("sk", "S")],
        [("pk", "HASH"), ("sk", "RANGE")], "PAY_PER_REQUEST") ∧
    (tableCallsOf (resolveInitConfig emptyEnv)).head? =
      some ("flopods-pods-dev", [("pk", "S"), ("sk", "S")],
        [("pk", "HASH"), ("sk", "RANGE")], "PAY_PER_REQUEST") :=
  ⟨(c8_pod_table_override envOverride).1 "custom-pods" rfl,
   (c8_pod_table_override emptyEnv).2 rfl⟩

/-- Claim C10 (confirmed): the resolved AWS_SQS_ENDPOINT value is never used
in any command the provisioner issues — two runs whose environments differ
only in that key produce identical command sequences (creation and
verification alike). -/
theorem c10_sqs_endpoint_noninterference (env₁ env₂ : Env)
    (h : ∀ k, k ≠ "AWS_SQS_ENDPOINT" → env₁ k = env₂ k) :
    initFullTrace env₁ = initFullTrace env₂ := by
  have hk : ∀ k d, k ≠ "AWS_SQS_ENDPOINT" → getenv env₁ k d = getenv env₂ k d := by
    intro k d hne
    simp [getenv, h k hne]
  have h₁ := hk "CONTAINER_RUNTIME" "docker" (by decide)
  have h₂ := hk "LOCALSTACK_CONTAINER_NAME" "localstack" (by decide)
  have h₃ := hk "AWS_DYNAMODB_REGION" "ap-south-1" (by decide)
  have h₄ := hk "AWS_DYNAMODB_POD_TABLE" "flopods-pods-dev" (by decide)
  have h₅ := hk "AWS_DYNAMODB_SESSION_TABLE" "flopods-sessions-dev" (by decide)
  have h₆ := hk "AWS_DYNAMODB_EXECUTION_TABLE" "flopods-executions-dev" (by decide)
  have h₇ := hk "AWS_DYNAMODB_CACHE_TABLE" "flopods-cache-dev" (by decide)
  have h₈ := hk "AWS_DYNAMODB_CONTEXT_TABLE" "flopods-context-dev" (by decide)
  have h₉ := hk "DOCUMENT_S3_BUCKET" "flopods-documents-dev" (by decide)
  have h₁₀ := hk "DOCUMENT_VECTOR_S3_BUCKET" "flopods-vectors-dev" (by decide)
  have h₁₁ := hk "AWS_S3_BUCKET_NAME" "flopods-files-dev" (by decide)
  have h₁₂ := hk "AWS_SES_NO_REPLY_EMAIL" "noreply@flopods.local" (by decide)
  have h₁₃ := hk "AWS_SES_SUPPORT_EMAIL" "support@flopods.local" (by decide)
  simp [initFullTrace, initCreationCmds, initVerifyCmds, tableCall,
    resolveInitConfig, initContainerRuntime, h₁, h₂, h₃, h₄, h₅, h₆, h₇, h₈,
    h₉, h₁₀, h₁₁, h₁₂, h₁₃]

/-- An environment that only sets the message-queue endpoint. -/
def envSqsOnly : Env :=
  fun k => if k = "AWS_SQS_ENDPOINT" then some "http://elsewhere:9999" else none

/-- Witness for C10: an environment setting only AWS_SQS_ENDPOINT resolves a
different endpoint than the empty environment, yet the provisioner issues
the very same commands. -/
theorem c10_sqs_endpoint_noninterference_witness :
    (resolveInitConfig envSqsOnly).sqsEndpoint ≠
      (resolveInitConfig emptyEnv).sqsEndpoint ∧
    initFullTrace envSqsOnly = initFullTrace emptyEnv :=
  ⟨by decide,
   c10_sqs_endpoint_noninterference envSqsOnly emptyEnv (by
     intro k hkk
     simp [envSqsOnly, emptyEnv, hkk])⟩

end Flopods
